import Mathlib

/-
Verification of the invoicefy invoicing application's service layer.

The TypeScript services are shallowly embedded: JavaScript numbers are
modelled as exact rationals (ℚ), strings as Lean `String`, `{data, error}`
service results as a record of two `Option`s, and the hosted database as an
explicit record of row lists threaded through each operation.  Failures of
the remote store are injected through explicit oracle parameters, since the
store itself is outside the program.
-/

namespace Invoicefy

/-- Uniform `{data, error}` result shape returned by every service function. -/
structure ServiceResponse (α : Type) where
  data : Option α
  error : Option String
deriving Repr, DecidableEq

/-- JavaScript truthiness of an optional string: `undefined`/`null` and the
empty string are falsy. -/
def optTruthy : Option String → Bool
  | none => false
  | some s => s ≠ ""

/-- Models `e.message || fallback`: an empty message falls back to the default. -/
def strOr (msg fallback : String) : String :=
  if msg = "" then fallback else msg

/-- An error object surfaced by the remote store, with a Postgres-style code
and a human-readable message. -/
structure StoreError where
  code : String
  message : String
deriving Repr, DecidableEq

/-- `JS Math.round`: rounds to the nearest integer, ties toward +∞. -/
def jsMathRound (x : ℚ) : ℤ := ⌊x + 1/2⌋

/-- Offline invoice line item (src/types: `InvoiceItem`). -/
structure InvoiceItem where
  id : String
  description : String
  quantity : ℚ
  rate : ℚ
  amount : ℚ
deriving Repr, DecidableEq

/-- `calculateItemAmount` from the monetary calculator:
`Math.round((quantity * rate) * 100) / 100`. -/
def calculateItemAmount (quantity rate : ℚ) : ℚ :=
  (jsMathRound ((quantity * rate) * 100) : ℚ) / 100

/-- `calculateSubtotal`: `Math.round(items.reduce((sum, item) => sum + item.amount, 0) * 100) / 100`. -/
def calculateSubtotal (items : List InvoiceItem) : ℚ :=
  (jsMathRound ((items.foldl (fun sum item => sum + item.amount) 0) * 100) : ℚ) / 100

/-- `calculateTaxAmount`: `Math.round((subtotal * (taxRate / 100)) * 100) / 100`. -/
def calculateTaxAmount (subtotal taxRate : ℚ) : ℚ :=
  (jsMathRound ((subtotal * (taxRate / 100)) * 100) : ℚ) / 100

/-- `calculateTotal`: `Math.round((subtotal + taxAmount) * 100) / 100`. -/
def calculateTotal (subtotal taxAmount : ℚ) : ℚ :=
  (jsMathRound ((subtotal + taxAmount) * 100) : ℚ) / 100

/-- Modelled from the spec's words: "round(x, 2) using standard half-up
rounding to cents" — round half-up to exactly 2 decimal places.  Used to
compare the implementation against the specification. -/
def specRoundHalfUp2 (x : ℚ) : ℚ := (⌊100 * x + 1/2⌋ : ℤ) / 100

lemma foldl_add_amount (items : List InvoiceItem) (a : ℚ) :
    items.foldl (fun sum item => sum + item.amount) a
      = a + (items.map (fun item => item.amount)).sum := by
  induction items generalizing a with
  | nil => simp
  | cons hd tl ih =>
    simp only [List.foldl_cons, List.map_cons, List.sum_cons, ih, add_assoc]

/-- Whitespace for JavaScript `String.prototype.trim` (space, tab, line
terminators, vertical tab, form feed, NBSP, line/paragraph separator, BOM). -/
def jsIsWhitespace (c : Char) : Bool :=
  c == ' ' || c == '\t' || c == '\n' || c == '\r' || c == '\x0b' ||
  c == '\x0c' || c == '\u00a0' || c == '\u2028' || c == '\u2029' || c == '\ufeff'

/-- JavaScript `s.trim()`: strips whitespace from both ends. -/
def jsTrim (s : String) : String :=
  String.mk (((s.data.dropWhile jsIsWhitespace).reverse.dropWhile jsIsWhitespace).reverse)

/-- Hexadecimal digit, case-insensitive (`[0-9a-f]` under the `/i` flag). -/
def isHexChar (c : Char) : Bool :=
  ('0' ≤ c && c ≤ '9') || ('a' ≤ c.toLower && c.toLower ≤ 'f')

/-- The UUID test used throughout the services:
`/^[0-9a-f]{8}-[0-9a-f]{4}-[1-5][0-9a-f]{3}-[89ab][0-9a-f]{3}-[0-9a-f]{12}$/i`. -/
def uuidTest (s : String) : Bool :=
  let cs := s.data
  cs.length == 36 &&
  (List.range 36).all (fun i =>
    let c := cs.getD i 'x'
    if i == 8 || i == 13 || i == 18 || i == 23 then c == '-'
    else if i == 14 then '1' ≤ c && c ≤ '5'
    else if i == 19 then
      c.toLower == '8' || c.toLower == '9' || c.toLower == 'a' || c.toLower == 'b'
    else isHexChar c)

def isDigitChar (c : Char) : Bool := '0' ≤ c && c ≤ '9'

def digitVal (c : Char) : ℕ := c.toNat - '0'.toNat

def isLeapYear (y : ℕ) : Bool := (y % 4 == 0 && y % 100 != 0) || y % 400 == 0

def daysInMonth (y m : ℕ) : ℕ :=
  if m == 2 then (if isLeapYear y then 29 else 28)
  else if m == 4 || m == 6 || m == 9 || m == 11 then 30
  else 31

/-- `isValidDateString`: matches `/^\d{4}-\d{2}-\d{2}$/` and requires that
`new Date(s)` is a real date whose ISO form round-trips to the same string —
i.e. the month is 01–12 and the day is within that (leap-aware) month. -/
def isValidDateString (s : String) : Bool :=
  match s.data with
  | [y1, y2, y3, y4, h1, m1, m2, h2, d1, d2] =>
    h1 == '-' && h2 == '-' &&
    [y1, y2, y3, y4, m1, m2, d1, d2].all isDigitChar &&
    (let y := ((digitVal y1 * 10 + digitVal y2) * 10 + digitVal y3) * 10 + digitVal y4
     let m := digitVal m1 * 10 + digitVal m2
     let d := digitVal d1 * 10 + digitVal d2
     1 ≤ m && m ≤ 12 && 1 ≤ d && d ≤ daysInMonth y m)
  | _ => false

/-- `str.padStart(n, c)` from JavaScript. -/
def padStart (n : ℕ) (c : Char) (s : String) : String :=
  if n ≤ s.length then s else String.mk (List.replicate (n - s.length) c) ++ s

/-- Hosted `freelancers` table row (the columns the services consult). -/
structure FreelancerRow where
  id : String
  user_id : String
deriving Repr, DecidableEq

/-- Hosted `clients` table row (the columns the services consult). -/
structure ClientRow where
  id : String
  freelancer_id : String
  user_id : String
deriving Repr, DecidableEq

/-- Hosted `invoices` table row.  Timestamps are opaque strings set by the
database; `updated_at` is refreshed on every update. -/
structure InvoiceRow where
  id : String
  freelancer_id : String
  client_id : String
  invoice_number : String
  date_issued : String
  due_date : String
  subtotal : ℚ
  tax_rate : ℚ
  tax_amount : ℚ
  total : ℚ
  status : String
  notes : Option String
  updated_at : Option String
deriving Repr, DecidableEq

/-- Hosted `invoice_items` table row (its auto-generated primary key is not
consulted by any claim and is omitted). -/
structure ItemRow where
  invoice_id : String
  description : String
  quantity : ℚ
  rate : ℚ
  amount : ℚ
deriving Repr, DecidableEq

/-- The hosted database state threaded through the services. -/
structure DB where
  freelancers : List FreelancerRow
  clients : List ClientRow
  invoices : List InvoiceRow
  invoice_items : List ItemRow
deriving Repr, DecidableEq

/-- Count of a freelancer's invoices, as computed by the
`count: 'exact', head: true` query filtered on `freelancer_id`. -/
def countInvoicesFor (db : DB) (freelancer_id : String) : ℕ :=
  (db.invoices.filter (fun r => r.freelancer_id == freelancer_id)).length

/-- `getNextInvoiceNumber`: validates the UUID, counts the freelancer's
invoices (the count query may fail, injected through `countError`), and
formats `count + 1` as `INV-` zero-padded to 3 digits.  A pure read: the
database is not modified (reflected by the function not returning one). -/
def getNextInvoiceNumber (countError : Option StoreError) (db : DB)
    (freelancer_id : String) : ServiceResponse String :=
  if !uuidTest freelancer_id then
    { data := none, error := some "Invalid freelancer ID format" }
  else
    match countError with
    | some e =>
      { data := none, error := some (strOr e.message "Failed to count existing invoices") }
    | none =>
      let nextNumber := countInvoicesFor db freelancer_id + 1
      { data := some ("INV-" ++ padStart 3 '0' (Nat.repr nextNumber)), error := none }

/-- `CreateInvoiceInput`: the invoice draft passed to `createInvoice`.
Optional TypeScript fields are `Option`s. -/
structure CreateInvoiceInput where
  freelancer_id : String
  client_id : String
  invoice_number : Option String
  date_issued : String
  due_date : String
  subtotal : ℚ
  tax_rate : ℚ
  tax_amount : ℚ
  total : ℚ
  status : Option String
  notes : Option String
deriving Repr, DecidableEq

/-- `CreateInvoiceItemInput`: one line item passed to `createInvoice`. -/
structure CreateInvoiceItemInput where
  description : String
  quantity : ℚ
  rate : ℚ
  amount : ℚ
deriving Repr, DecidableEq

/-- The result row joined with its persisted items, `InvoiceWithItems`. -/
structure InvoiceWithItems where
  invoice : InvoiceRow
  items : List ItemRow
deriving Repr, DecidableEq

/-- The four legal status values. -/
def statusValues : List String := ["draft", "sent", "paid", "overdue"]

/-- The non-item part of `validateInvoiceInput`: required fields (JS
truthiness), UUID shapes, date formats, non-negative numerics, and the status
enumeration (checked only when `status` is truthy). -/
def validateInvoiceFields (invoice : CreateInvoiceInput) : Option String :=
  if invoice.freelancer_id = "" ∨ invoice.client_id = ""
      ∨ optTruthy invoice.invoice_number = false then
    some "Missing required fields: freelancer_id, client_id, or invoice_number"
  else if !uuidTest invoice.freelancer_id then
    some "Invalid freelancer_id format"
  else if !uuidTest invoice.client_id then
    some "Invalid client_id format"
  else if !isValidDateString invoice.date_issued then
    some "Invalid date_issued format. Use YYYY-MM-DD"
  else if !isValidDateString invoice.due_date then
    some "Invalid due_date format. Use YYYY-MM-DD"
  else if invoice.subtotal < 0 ∨ invoice.tax_rate < 0
      ∨ invoice.tax_amount < 0 ∨ invoice.total < 0 then
    some "Numeric fields cannot be negative"
  else if optTruthy invoice.status
      && !(statusValues.contains (invoice.status.getD "")) then
    some "Invalid status. Must be one of: draft, sent, paid, overdue"
  else
    none

/-- The item loop of `validateInvoiceInput`; `i` is the 0-based index and
error messages are 1-indexed. -/
def validateItemsFrom (i : ℕ) : List CreateInvoiceItemInput → Option String
  | [] => none
  | item :: rest =>
    if jsTrim item.description = "" then
      some ("Item " ++ Nat.repr (i + 1) ++ ": Description is required")
    else if item.quantity ≤ 0 then
      some ("Item " ++ Nat.repr (i + 1) ++ ": Quantity must be greater than 0")
    else if item.rate < 0 then
      some ("Item " ++ Nat.repr (i + 1) ++ ": Rate cannot be negative")
    else if item.amount < 0 then
      some ("Item " ++ Nat.repr (i + 1) ++ ": Amount cannot be negative")
    else
      validateItemsFrom (i + 1) rest

/-- `validateInvoiceInput`: field checks first, then the non-empty items
requirement, then the per-item loop. -/
def validateInvoiceInput (invoice : CreateInvoiceInput)
    (items : List CreateInvoiceItemInput) : Option String :=
  match validateInvoiceFields invoice with
  | some e => some e
  | none =>
    if items.length = 0 then some "At least one invoice item is required"
    else validateItemsFrom 0 items

/-- Models a supabase `.single()` query result: succeeds exactly when the
filtered row set has exactly one row. -/
def singleRow {α : Type} : List α → Option α
  | [r] => some r
  | _ => none

/-- `validateInvoiceRelationships`: the freelancer must exist, the client
must exist, and the client's owning freelancer must be the invoice's. -/
def validateInvoiceRelationships (db : DB) (invoice : CreateInvoiceInput) :
    Option String :=
  match singleRow (db.freelancers.filter (fun r => r.id == invoice.freelancer_id)) with
  | none => some "Freelancer not found"
  | some _ =>
    match singleRow (db.clients.filter (fun r => r.id == invoice.client_id)) with
    | none => some "Client not found"
    | some client =>
      if client.freelancer_id ≠ invoice.freelancer_id then
        some "Client does not belong to the specified freelancer"
      else
        none

/-- Outcomes of the remote store's insert calls and the id it assigns to the
inserted invoice row, injected as parameters since the store is external. -/
structure StoreOracle where
  countError : Option StoreError
  invoiceInsertError : Option StoreError
  itemsInsertError : Option StoreError
  freshInvoiceId : String
deriving Repr, DecidableEq

/-- Step 1 of `createInvoice`: use the provided invoice number when truthy,
otherwise call `getNextInvoiceNumber` and fail as it fails. -/
def resolveInvoiceNumber (ora : StoreOracle) (db : DB)
    (invoice : CreateInvoiceInput) : ServiceResponse String :=
  if optTruthy invoice.invoice_number then
    { data := invoice.invoice_number, error := none }
  else
    let r := getNextInvoiceNumber ora.countError db invoice.freelancer_id
    if optTruthy r.error ∨ optTruthy r.data = false then
      { data := none,
        error := if optTruthy r.error then r.error
          else some "Failed to generate invoice number" }
    else
      { data := r.data, error := none }

/-- `createInvoice`: resolves the number, validates shape and relationships,
inserts the invoice row, then batch-inserts the item rows; if the item insert
fails it deletes the just-created invoice row (cascading to its items) and
returns the item-insert error. -/
def createInvoice (ora : StoreOracle) (db : DB) (invoice : CreateInvoiceInput)
    (items : List CreateInvoiceItemInput) :
    ServiceResponse InvoiceWithItems × DB :=
  let rnum := resolveInvoiceNumber ora db invoice
  match rnum.data with
  | none => ({ data := none, error := rnum.error }, db)
  | some num =>
    let invoiceWithNumber := { invoice with invoice_number := some num }
    match validateInvoiceInput invoiceWithNumber items with
    | some e => ({ data := none, error := some e }, db)
    | none =>
      match validateInvoiceRelationships db invoiceWithNumber with
      | some e => ({ data := none, error := some e }, db)
      | none =>
        match ora.invoiceInsertError with
        | some e =>
          ({ data := none,
             error := some (
               if e.code = "23503" then
                 "Invalid freelancer or client ID - referenced record does not exist"
               else if e.code = "23505" then
                 "Invoice number already exists"
               else strOr e.message "Failed to create invoice") }, db)
        | none =>
          let createdInvoice : InvoiceRow :=
            { id := ora.freshInvoiceId,
              freelancer_id := invoiceWithNumber.freelancer_id,
              client_id := invoiceWithNumber.client_id,
              invoice_number := num,
              date_issued := invoiceWithNumber.date_issued,
              due_date := invoiceWithNumber.due_date,
              subtotal := invoiceWithNumber.subtotal,
              tax_rate := invoiceWithNumber.tax_rate,
              tax_amount := invoiceWithNumber.tax_amount,
              total := invoiceWithNumber.total,
              status := if optTruthy invoiceWithNumber.status
                then invoiceWithNumber.status.getD "draft" else "draft",
              notes := if optTruthy invoiceWithNumber.notes
                then invoiceWithNumber.notes else none,
              updated_at := none }
          let db1 := { db with invoices := db.invoices ++ [createdInvoice] }
          let itemsToInsert := items.map (fun item =>
            ({ invoice_id := ora.freshInvoiceId,
               description := jsTrim item.description,
               quantity := item.quantity, rate := item.rate,
               amount := item.amount } : ItemRow))
          match ora.itemsInsertError with
          | some e =>
            let db2 :=
              { db1 with
                invoices := db1.invoices.filter
                  (fun r => r.id ≠ ora.freshInvoiceId),
                invoice_items := db1.invoice_items.filter
                  (fun r => r.invoice_id ≠ ora.freshInvoiceId) }
            ({ data := none,
               error := some (strOr e.message "Failed to create invoice items") },
             db2)
          | none =>
            let db2 := { db1 with invoice_items := db1.invoice_items ++ itemsToInsert }
            ({ data := some { invoice := createdInvoice, items := itemsToInsert },
               error := none }, db2)

/-- `deleteInvoice`: UUID check, then an unconditional delete of the matching
invoice row (items cascade); succeeds whether or not any row matched. -/
def deleteInvoice (deleteError : Option StoreError) (db : DB)
    (invoice_id : String) : ServiceResponse Bool × DB :=
  if !uuidTest invoice_id then
    ({ data := none, error := some "Invalid invoice ID format" }, db)
  else
    match deleteError with
    | some e =>
      ({ data := none, error := some (strOr e.message "Failed to delete invoice") }, db)
    | none =>
      ({ data := some true, error := none },
       { db with
         invoices := db.invoices.filter (fun r => r.id ≠ invoice_id),
         invoice_items := db.invoice_items.filter (fun r => r.invoice_id ≠ invoice_id) })

/-- `deleteFreelancer`: requires a session, validates the UUID, then deletes
the freelancer rows matching both the id and the session's user; succeeds
whether or not any row matched.  (Database-side cascades to dependent rows
are not observed by any claim and are not modelled here.) -/
def deleteFreelancer (session : Option String) (deleteError : Option StoreError)
    (db : DB) (id : String) : ServiceResponse Bool × DB :=
  match session with
  | none => ({ data := none, error := some "Authentication required" }, db)
  | some userId =>
    if !uuidTest id then
      ({ data := none, error := some "Invalid UUID format" }, db)
    else
      match deleteError with
      | some e =>
        ({ data := none,
           error := some (strOr e.message "Failed to delete freelancer") }, db)
      | none =>
        ({ data := some true, error := none },
         { db with freelancers :=
             db.freelancers.filter (fun r => !(r.id == id && r.user_id == userId)) })

/-- `deleteClient`: same shape as `deleteFreelancer`, over the clients table. -/
def deleteClient (session : Option String) (deleteError : Option StoreError)
    (db : DB) (id : String) : ServiceResponse Bool × DB :=
  match session with
  | none => ({ data := none, error := some "Authentication required" }, db)
  | some userId =>
    if !uuidTest id then
      ({ data := none, error := some "Invalid UUID format" }, db)
    else
      match deleteError with
      | some e =>
        ({ data := none,
           error := some (strOr e.message "Failed to delete client") }, db)
      | none =>
        ({ data := some true, error := none },
         { db with clients :=
             db.clients.filter (fun r => !(r.id == id && r.user_id == userId)) })

/-- C3: for all non-negative quantity and rate, `calculateItemAmount` equals
the product rounded half-up to exactly 2 decimal places, and the result is a
quantity with at most 2 fractional digits (100 times it is an integer). -/
theorem calculateItemAmount_rounds_half_up (q r : ℚ) (hq : 0 ≤ q) (hr : 0 ≤ r) :
    calculateItemAmount q r = specRoundHalfUp2 (q * r) ∧
    ∃ k : ℤ, calculateItemAmount q r * 100 = (k : ℚ) := by
  constructor
  · unfold calculateItemAmount specRoundHalfUp2 jsMathRound
    rw [mul_comm (q * r) 100]
  · refine ⟨jsMathRound ((q * r) * 100), ?_⟩
    unfold calculateItemAmount
    field_simp

/-- Witness for C3 at quantity 3, rate 199/100 (1.99): amount is 597/100. -/
theorem calculateItemAmount_rounds_half_up_witness :
    (0 : ℚ) ≤ 3 ∧ (0 : ℚ) ≤ 199/100 ∧
    calculateItemAmount 3 (199/100) = specRoundHalfUp2 (3 * (199/100)) := by
  refine ⟨by norm_num, by norm_num, ?_⟩
  exact (calculateItemAmount_rounds_half_up 3 (199/100) (by norm_num) (by norm_num)).1

/-- C4: `calculateSubtotal` is invariant under permutation of the item list,
and equals the sum of the items' `amount` fields rounded half-up to 2 decimal
places. -/
theorem calculateSubtotal_perm_invariant (items items' : List InvoiceItem)
    (hperm : List.Perm items items') :
    calculateSubtotal items = calculateSubtotal items' ∧
    calculateSubtotal items
      = specRoundHalfUp2 ((items.map (fun item => item.amount)).sum) := by
  have hsum : ∀ l : List InvoiceItem,
      calculateSubtotal l
        = specRoundHalfUp2 ((l.map (fun item => item.amount)).sum) := by
    intro l
    unfold calculateSubtotal specRoundHalfUp2 jsMathRound
    rw [foldl_add_amount, zero_add, mul_comm]
  refine ⟨?_, hsum items⟩
  rw [hsum items, hsum items']
  rw [List.Perm.sum_eq (List.Perm.map (fun item => item.amount) hperm)]

/-- Witness for C4 on a concrete two-element list and its swap. -/
theorem calculateSubtotal_perm_invariant_witness :
    calculateSubtotal
        [⟨"a", "x", 1, 2, 2⟩, ⟨"b", "y", 3, 4, 12⟩]
      = calculateSubtotal
        [⟨"b", "y", 3, 4, 12⟩, ⟨"a", "x", 1, 2, 2⟩] := by
  exact (calculateSubtotal_perm_invariant
    [⟨"a", "x", 1, 2, 2⟩, ⟨"b", "y", 3, 4, 12⟩]
    [⟨"b", "y", 3, 4, 12⟩, ⟨"a", "x", 1, 2, 2⟩]
    (List.Perm.swap _ _ _)).1

/-- C2: for a UUID-shaped freelancer id, when the count query succeeds the
service reports no error and returns `INV-` followed by count + 1 zero-padded
to 3 digits.  The function performs no write: it does not touch (or return)
the database. -/
theorem getNextInvoiceNumber_formats (db : DB) (freelancer_id : String)
    (h : uuidTest freelancer_id = true) :
    getNextInvoiceNumber none db freelancer_id
      = { data := some ("INV-" ++ padStart 3 '0'
            (Nat.repr (countInvoicesFor db freelancer_id + 1))),
          error := none } := by
  unfold getNextInvoiceNumber
  simp [h]

/-- A sample UUID accepted by `uuidTest`. -/
def uuidA : String := "12345678-1234-1234-8123-123456789012"

/-- A second sample UUID accepted by `uuidTest`, distinct from `uuidA`. -/
def uuidB : String := "aaaaaaaa-bbbb-4ccc-9ddd-eeeeeeeeeeee"

/-- A sample invoice row used to populate concrete database states. -/
def sampleInvoiceRow (rowId freelancerId : String) : InvoiceRow :=
  { id := rowId, freelancer_id := freelancerId, client_id := uuidB,
    invoice_number := "INV-000", date_issued := "2024-01-01",
    due_date := "2024-01-31", subtotal := 0, tax_rate := 0, tax_amount := 0,
    total := 0, status := "draft", notes := none, updated_at := none }

/-- Witness for C2: count 0 yields `INV-001` and count 5 yields `INV-006`. -/
theorem getNextInvoiceNumber_formats_witness :
    getNextInvoiceNumber none ⟨[], [], [], []⟩ uuidA
      = { data := some "INV-001", error := none } ∧
    getNextInvoiceNumber none
        ⟨[], [], List.replicate 5 (sampleInvoiceRow "i" uuidA), []⟩ uuidA
      = { data := some "INV-006", error := none } := by
  constructor
  · rw [getNextInvoiceNumber_formats ⟨[], [], [], []⟩ uuidA (by decide)]
    decide
  · rw [getNextInvoiceNumber_formats
      ⟨[], [], List.replicate 5 (sampleInvoiceRow "i" uuidA), []⟩ uuidA (by decide)]
    decide

/-- A structurally valid sample invoice draft. -/
def draftA : CreateInvoiceInput :=
  { freelancer_id := uuidA, client_id := uuidB,
    invoice_number := some "INV-001", date_issued := "2024-01-15",
    due_date := "2024-02-15", subtotal := 100, tax_rate := 20,
    tax_amount := 20, total := 120, status := none, notes := none }

/-- A valid sample line item input. -/
def itemA : CreateInvoiceItemInput :=
  { description := "work", quantity := 1, rate := 100, amount := 100 }

/-- A sample database containing freelancer `uuidA` and its client `uuidB`. -/
def dbA : DB :=
  { freelancers := [⟨uuidA, "u1"⟩], clients := [⟨uuidB, uuidA, "u1"⟩],
    invoices := [], invoice_items := [] }

/-- An oracle on which every store call succeeds. -/
def oraOk : StoreOracle :=
  { countError := none, invoiceInsertError := none, itemsInsertError := none,
    freshInvoiceId := "fresh" }

/-- An oracle on which only the batch item insert fails. -/
def oraItemsFail : StoreOracle :=
  { countError := none, invoiceInsertError := none,
    itemsInsertError := some ⟨"X", "boom"⟩, freshInvoiceId := "fresh" }

/-- C1: when the invoice-row insert succeeds and the batch item insert fails,
`createInvoice` reports the item-insert error with no data, the just-created
invoice row (and its items) are deleted from the database, no other table is
touched, no invoice with the created id remains persisted, and — when the
assigned id was genuinely fresh — the database is restored exactly. -/
theorem createInvoice_rollback_on_item_failure (ora : StoreOracle) (db : DB)
    (invoice : CreateInvoiceInput) (items : List CreateInvoiceItemInput)
    (num : String) (e : StoreError)
    (hinv : ora.invoiceInsertError = none)
    (hitems : ora.itemsInsertError = some e)
    (hnum : (resolveInvoiceNumber ora db invoice).data = some num)
    (hval : validateInvoiceInput { invoice with invoice_number := some num } items = none)
    (hrel : validateInvoiceRelationships db { invoice with invoice_number := some num } = none) :
    (createInvoice ora db invoice items).1.data = none ∧
    (createInvoice ora db invoice items).1.error
      = some (strOr e.message "Failed to create invoice items") ∧
    (createInvoice ora db invoice items).2.invoices
      = db.invoices.filter (fun r => r.id ≠ ora.freshInvoiceId) ∧
    (createInvoice ora db invoice items).2.invoice_items
      = db.invoice_items.filter (fun r => r.invoice_id ≠ ora.freshInvoiceId) ∧
    (createInvoice ora db invoice items).2.freelancers = db.freelancers ∧
    (createInvoice ora db invoice items).2.clients = db.clients ∧
    (∀ r ∈ (createInvoice ora db invoice items).2.invoices,
      r.id ≠ ora.freshInvoiceId) ∧
    ((∀ r ∈ db.invoices, r.id ≠ ora.freshInvoiceId) →
     (∀ r ∈ db.invoice_items, r.invoice_id ≠ ora.freshInvoiceId) →
     (createInvoice ora db invoice items).2 = db) := by
  have hrun : createInvoice ora db invoice items
      = ({ data := none,
           error := some (strOr e.message "Failed to create invoice items") },
         { db with
           invoices := db.invoices.filter (fun r => r.id ≠ ora.freshInvoiceId),
           invoice_items := db.invoice_items.filter
             (fun r => r.invoice_id ≠ ora.freshInvoiceId) }) := by
    simp only [createInvoice, hnum, hval, hrel, hinv, hitems]
    simp [List.filter_append]
  refine ⟨by rw [hrun], by rw [hrun], by rw [hrun], by rw [hrun],
    by rw [hrun], by rw [hrun], ?_, ?_⟩
  · rw [hrun]
    intro r hr
    simpa using (List.of_mem_filter hr)
  · intro hfresh hfreshItems
    rw [hrun]
    have h1 : db.invoices.filter (fun r => r.id ≠ ora.freshInvoiceId)
        = db.invoices := by
      rw [List.filter_eq_self]
      intro a ha
      simpa using hfresh a ha
    have h2 : db.invoice_items.filter (fun r => r.invoice_id ≠ ora.freshInvoiceId)
        = db.invoice_items := by
      rw [List.filter_eq_self]
      intro a ha
      simpa using hfreshItems a ha
    rw [h1, h2]

/-- Witness for C1: on the sample database, a failing item insert yields the
store's own error message and the exactly restored database. -/
theorem createInvoice_rollback_on_item_failure_witness :
    (createInvoice oraItemsFail dbA draftA [itemA]).1.data = none ∧
    (createInvoice oraItemsFail dbA draftA [itemA]).1.error = some "boom" ∧
    (createInvoice oraItemsFail dbA draftA [itemA]).2 = dbA := by
  have h := createInvoice_rollback_on_item_failure oraItemsFail dbA draftA
    [itemA] "INV-001" ⟨"X", "boom"⟩ rfl rfl (by decide) (by decide) (by decide)
  refine ⟨h.1, ?_, ?_⟩
  · rw [h.2.1]
    decide
  · exact h.2.2.2.2.2.2.2 (by decide) (by decide)

/-- Counterexample to C5 as stated: a draft whose `freelancer_id` is not
UUID-shaped, submitted with an empty items array, fails with the
freelancer-id format error rather than the "at least one item" error (the
field checks run before the items check). -/
theorem createInvoice_emptyItems_counterexample :
    (createInvoice oraOk dbA { draftA with freelancer_id := "bad" } []).1.error
      = some "Invalid freelancer_id format" ∧
    (createInvoice oraOk dbA { draftA with freelancer_id := "bad" } []).1.error
      ≠ some "At least one invoice item is required" ∧
    (createInvoice oraOk dbA { draftA with freelancer_id := "bad" } []).2 = dbA := by
  decide

/-- C5 (amended): for every draft whose invoice-number resolution succeeds
and whose non-item field checks pass, `createInvoice` with an empty items
array fails with exactly "At least one invoice item is required" and leaves
the database unchanged. -/
theorem createInvoice_emptyItems_fails (ora : StoreOracle) (db : DB)
    (invoice : CreateInvoiceInput) (num : String)
    (hnum : (resolveInvoiceNumber ora db invoice).data = some num)
    (hfields : validateInvoiceFields { invoice with invoice_number := some num } = none) :
    createInvoice ora db invoice []
      = ({ data := none, error := some "At least one invoice item is required" }, db) := by
  simp only [createInvoice, hnum]
  simp [validateInvoiceInput, hfields]

/-- Witness for the amended C5 on the sample draft and database. -/
theorem createInvoice_emptyItems_fails_witness :
    createInvoice oraOk dbA draftA []
      = ({ data := none, error := some "At least one invoice item is required" }, dbA) :=
  createInvoice_emptyItems_fails oraOk dbA draftA "INV-001" (by decide) (by decide)

/-- Counterexample to C6 as stated: with the draft's client present but owned
by a different freelancer, and the draft's freelancer absent from the
database, `createInvoice` fails with "Freelancer not found" — not with the
client-relationship error the claim requires. -/
theorem createInvoice_clientMismatch_counterexample :
    (createInvoice oraOk
        { freelancers := [], clients := [⟨uuidB, uuidB, "u1"⟩],
          invoices := [], invoice_items := [] } draftA [itemA]).1.error
      = some "Freelancer not found" ∧
    (createInvoice oraOk
        { freelancers := [], clients := [⟨uuidB, uuidB, "u1"⟩],
          invoices := [], invoice_items := [] } draftA [itemA]).1.error
      ≠ some "Client does not belong to the specified freelancer" ∧
    (createInvoice oraOk
        { freelancers := [], clients := [⟨uuidB, uuidB, "u1"⟩],
          invoices := [], invoice_items := [] } draftA [itemA]).2
      = { freelancers := [], clients := [⟨uuidB, uuidB, "u1"⟩],
          invoices := [], invoice_items := [] } := by
  decide

/-- C6 (amended): for every structurally valid draft whose referenced
freelancer exists, whose referenced client exists, and whose client's owning
freelancer differs from the draft's, `createInvoice` fails with exactly
"Client does not belong to the specified freelancer" and leaves the database
unchanged. -/
theorem createInvoice_clientMismatch_fails (ora : StoreOracle) (db : DB)
    (invoice : CreateInvoiceInput) (items : List CreateInvoiceItemInput)
    (num : String) (f : FreelancerRow) (c : ClientRow)
    (hnum : (resolveInvoiceNumber ora db invoice).data = some num)
    (hval : validateInvoiceInput { invoice with invoice_number := some num } items = none)
    (hf : db.freelancers.filter (fun r => r.id == invoice.freelancer_id) = [f])
    (hc : db.clients.filter (fun r => r.id == invoice.client_id) = [c])
    (hmismatch : c.freelancer_id ≠ invoice.freelancer_id) :
    createInvoice ora db invoice items
      = ({ data := none,
           error := some "Client does not belong to the specified freelancer" }, db) := by
  have hrel : validateInvoiceRelationships db { invoice with invoice_number := some num }
      = some "Client does not belong to the specified freelancer" := by
    unfold validateInvoiceRelationships
    simp only [hf, hc, singleRow]
    simp [hmismatch]
  simp only [createInvoice, hnum, hval, hrel]

/-- Witness for the amended C6: client `uuidB` owned by `uuidB`, draft issued
by existing freelancer `uuidA`. -/
theorem createInvoice_clientMismatch_fails_witness :
    createInvoice oraOk
        { freelancers := [⟨uuidA, "u1"⟩], clients := [⟨uuidB, uuidB, "u1"⟩],
          invoices := [], invoice_items := [] } draftA [itemA]
      = ({ data := none,
           error := some "Client does not belong to the specified freelancer" },
         { freelancers := [⟨uuidA, "u1"⟩], clients := [⟨uuidB, uuidB, "u1"⟩],
           invoices := [], invoice_items := [] }) :=
  createInvoice_clientMismatch_fails oraOk
    { freelancers := [⟨uuidA, "u1"⟩], clients := [⟨uuidB, uuidB, "u1"⟩],
      invoices := [], invoice_items := [] }
    draftA [itemA] "INV-001" ⟨uuidA, "u1"⟩ ⟨uuidB, uuidB, "u1"⟩
    (by decide) (by decide) (by decide) (by decide) (by decide)

/-- C10: for a well-formed UUID and an error-free storage delete, each of the
three delete operations reports `{data: true, error: null}` — with no
hypothesis that a matching row exists, so deleting a non-existent entity is
not reported as a not-found condition. -/
theorem delete_succeeds_without_row (db : DB) (id userId : String)
    (h : uuidTest id = true) :
    (deleteInvoice none db id).1 = { data := some true, error := none } ∧
    (deleteFreelancer (some userId) none db id).1
      = { data := some true, error := none } ∧
    (deleteClient (some userId) none db id).1
      = { data := some true, error := none } := by
  unfold deleteInvoice deleteFreelancer deleteClient
  simp [h]

/-- Witness for C10 on an empty database, where no row with the id exists. -/
theorem delete_succeeds_without_row_witness :
    (deleteInvoice none ⟨[], [], [], []⟩ uuidA).1
      = { data := some true, error := none } ∧
    (deleteFreelancer (some "u1") none ⟨[], [], [], []⟩ uuidA).1
      = { data := some true, error := none } ∧
    (deleteClient (some "u1") none ⟨[], [], [], []⟩ uuidA).1
      = { data := some true, error := none } :=
  delete_succeeds_without_row ⟨[], [], [], []⟩ uuidA "u1" (by decide)

/-- A JSON value.  `JSON.stringify` and `JSON.parse` are mutually inverse on
such values, so the offline storage layer is modelled at the value level:
a slot holds the parsed form of the stored string. -/
inductive JVal where
  | null : JVal
  | jbool : Bool → JVal
  | jnum : ℚ → JVal
  | jstr : String → JVal
  | jarr : List JVal → JVal
  | jobj : List (String × JVal) → JVal
deriving Repr

/-- JavaScript truthiness of a JSON value: `null`, `false`, `0` and `""` are
falsy; every array and object (even empty) is truthy. -/
def jsTruthy : JVal → Bool
  | .null => false
  | .jbool b => b
  | .jnum q => q ≠ 0
  | .jstr s => s ≠ ""
  | .jarr _ => true
  | .jobj _ => true

/-- Property access `v[k]` on a parsed JSON value: on an object the last
binding of the key wins (as in `JSON.parse`); on anything else the access
yields `undefined` (`none`). -/
def jProp : JVal → String → Option JVal
  | .jobj fields, k => (fields.reverse.find? (fun p => p.1 == k)).map (fun p => p.2)
  | _, _ => none

/-- The offline `localStorage` state: one slot per storage key, holding the
parsed form of the stored JSON string (`none` = key absent). -/
structure OfflineState where
  freelancer : Option JVal
  clients : Option JVal
  invoices : Option JVal
  counter : Option JVal
deriving Repr

/-- `getFreelancer`: the stored value, or `null` when the key is absent. -/
def getFreelancer (st : OfflineState) : JVal := st.freelancer.getD JVal.null

/-- `getClients`: the stored array's elements, `[]` when the key is absent or
the stored value is not an array (the revival `.map` then throws and the
`catch` returns `[]`).  The `new Date(createdAt)` revival is modelled as the
identity on the serialized value: a `Date` is represented by its
timestamp-equivalent serialization. -/
def getClients (st : OfflineState) : List JVal :=
  match st.clients with
  | some (JVal.jarr xs) => xs
  | _ => []

/-- `getInvoices`: same shape as `getClients` over the invoices slot. -/
def getInvoices (st : OfflineState) : List JVal :=
  match st.invoices with
  | some (JVal.jarr xs) => xs
  | _ => []

/-- Truncation toward zero, as `parseInt` truncates a decimal numeral. -/
def ratTrunc (q : ℚ) : ℤ := if 0 ≤ q then ⌊q⌋ else ⌈q⌉

/-- `getInvoiceCounter`: default 1 when the key is absent; the counter slot is
written through `counter.toString()` and read back with `parseInt`, which on a
number's numeral recovers its integer part.  `none` models `NaN` (a stored
value whose text `parseInt` cannot read a leading integer from). -/
def getInvoiceCounter (st : OfflineState) : Option ℤ :=
  match st.counter with
  | none => some 1
  | some (JVal.jnum q) => some (ratTrunc q)
  | some _ => none

/-- `JSON.stringify` of the counter number: `NaN` serializes as `null`. -/
def encodeCounter : Option ℤ → JVal
  | some k => JVal.jnum (k : ℚ)
  | none => JVal.null

/-- `exportData`: the object `JSON.stringify` serializes, built from the four
getters. -/
def exportData (st : OfflineState) : JVal :=
  JVal.jobj
    [("freelancer", getFreelancer st),
     ("clients", JVal.jarr (getClients st)),
     ("invoices", JVal.jarr (getInvoices st)),
     ("counter", encodeCounter (getInvoiceCounter st))]

/-- `importData`: `none` models a string `JSON.parse` rejects (the `catch`
returns `false` with nothing saved); property access on a parsed `null`
throws, also caught; otherwise each of the four keys is saved exactly when
its value is truthy, and the call reports `true`. -/
def importData (parsed : Option JVal) (st : OfflineState) : Bool × OfflineState :=
  match parsed with
  | none => (false, st)
  | some JVal.null => (false, st)
  | some v =>
    let st1 := match jProp v "freelancer" with
      | some f => if jsTruthy f then { st with freelancer := some f } else st
      | none => st
    let st2 := match jProp v "clients" with
      | some c => if jsTruthy c then { st1 with clients := some c } else st1
      | none => st1
    let st3 := match jProp v "invoices" with
      | some iv => if jsTruthy iv then { st2 with invoices := some iv } else st2
      | none => st2
    let st4 := match jProp v "counter" with
      | some ct => if jsTruthy ct then { st3 with counter := some ct } else st3
      | none => st3
    (true, st4)

lemma ratTrunc_intCast (k : ℤ) : ratTrunc (k : ℚ) = k := by
  unfold ratTrunc
  split_ifs <;> simp

lemma importData_jobj4 (st : OfflineState) (fv cv iv nv : JVal) :
    importData (some (JVal.jobj
        [("freelancer", fv), ("clients", cv), ("invoices", iv), ("counter", nv)])) st
      = (true,
         { freelancer := if jsTruthy fv then some fv else st.freelancer,
           clients := if jsTruthy cv then some cv else st.clients,
           invoices := if jsTruthy iv then some iv else st.invoices,
           counter := if jsTruthy nv then some nv else st.counter }) := by
  have h1 : jProp (JVal.jobj
      [("freelancer", fv), ("clients", cv), ("invoices", iv), ("counter", nv)])
      "freelancer" = some fv := rfl
  have h2 : jProp (JVal.jobj
      [("freelancer", fv), ("clients", cv), ("invoices", iv), ("counter", nv)])
      "clients" = some cv := rfl
  have h3 : jProp (JVal.jobj
      [("freelancer", fv), ("clients", cv), ("invoices", iv), ("counter", nv)])
      "invoices" = some iv := rfl
  have h4 : jProp (JVal.jobj
      [("freelancer", fv), ("clients", cv), ("invoices", iv), ("counter", nv)])
      "counter" = some nv := rfl
  simp only [importData, h1, h2, h3, h4]
  split_ifs <;> rfl

/-- C7: importing the export of the current offline state succeeds and leaves
every getter — freelancer, clients, invoices, counter — unchanged; importing
malformed JSON reports `false` and changes no stored key. -/
theorem exportData_importData_roundTrip :
    (∀ st : OfflineState,
      (importData (some (exportData st)) st).1 = true ∧
      getFreelancer (importData (some (exportData st)) st).2 = getFreelancer st ∧
      getClients (importData (some (exportData st)) st).2 = getClients st ∧
      getInvoices (importData (some (exportData st)) st).2 = getInvoices st ∧
      getInvoiceCounter (importData (some (exportData st)) st).2
        = getInvoiceCounter st) ∧
    (∀ st : OfflineState, importData none st = (false, st)) := by
  constructor
  · intro st
    have hrun := importData_jobj4 st (getFreelancer st) (JVal.jarr (getClients st))
      (JVal.jarr (getInvoices st)) (encodeCounter (getInvoiceCounter st))
    have hexp : exportData st = JVal.jobj
        [("freelancer", getFreelancer st),
         ("clients", JVal.jarr (getClients st)),
         ("invoices", JVal.jarr (getInvoices st)),
         ("counter", encodeCounter (getInvoiceCounter st))] := rfl
    rw [hexp, hrun]
    refine ⟨rfl, ?_, ?_, ?_, ?_⟩
    · simp only [getFreelancer]
      split_ifs <;> rfl
    · rfl
    · rfl
    · rcases hn : getInvoiceCounter st with _ | k
      · simp only [hn, encodeCounter, jsTruthy]
        simp [getInvoiceCounter]
        exact hn
      · by_cases hk : (k : ℚ) = 0
        · simp only [hn, encodeCounter, jsTruthy, hk]
          simp [getInvoiceCounter]
          exact hn
        · simp only [hn, encodeCounter, jsTruthy, hk]
          simp [getInvoiceCounter, hk, ratTrunc_intCast]
  · intro st
    rfl

/-- C9: a top-level key bound to a falsy value (`null`, `false`, `0`, `""`)
is treated as absent by `importData`: the import succeeds and no stored key
changes.  The witness instantiates this at `{"counter": 0}`. -/
lemma jProp_single_eq (k : String) (v : JVal) :
    jProp (JVal.jobj [(k, v)]) k = some v := by
  simp [jProp]

lemma jProp_single_ne (k key : String) (v : JVal) (h : k ≠ key) :
    jProp (JVal.jobj [(k, v)]) key = none := by
  have hb : (k == key) = false := by
    simp [h]
  simp [jProp, List.find?, hb]

theorem importData_falsy_key_ignored (st : OfflineState) (k : String) (v : JVal)
    (hfalsy : jsTruthy v = false) :
    importData (some (JVal.jobj [(k, v)])) st = (true, st) := by
  by_cases h1 : k = "freelancer"
  · subst h1
    have e2 := jProp_single_ne "freelancer" "clients" v (by decide)
    have e3 := jProp_single_ne "freelancer" "invoices" v (by decide)
    have e4 := jProp_single_ne "freelancer" "counter" v (by decide)
    simp only [importData, jProp_single_eq, e2, e3, e4, hfalsy]
    simp
  · by_cases h2 : k = "clients"
    · subst h2
      have e1 := jProp_single_ne "clients" "freelancer" v (by decide)
      have e3 := jProp_single_ne "clients" "invoices" v (by decide)
      have e4 := jProp_single_ne "clients" "counter" v (by decide)
      simp only [importData, jProp_single_eq, e1, e3, e4, hfalsy]
      simp
    · by_cases h3 : k = "invoices"
      · subst h3
        have e1 := jProp_single_ne "invoices" "freelancer" v (by decide)
        have e2 := jProp_single_ne "invoices" "clients" v (by decide)
        have e4 := jProp_single_ne "invoices" "counter" v (by decide)
        simp only [importData, jProp_single_eq, e1, e2, e4, hfalsy]
        simp
      · by_cases h4 : k = "counter"
        · subst h4
          have e1 := jProp_single_ne "counter" "freelancer" v (by decide)
          have e2 := jProp_single_ne "counter" "clients" v (by decide)
          have e3 := jProp_single_ne "counter" "invoices" v (by decide)
          simp only [importData, jProp_single_eq, e1, e2, e3, hfalsy]
          simp
        · have e1 := jProp_single_ne k "freelancer" v h1
          have e2 := jProp_single_ne k "clients" v h2
          have e3 := jProp_single_ne k "invoices" v h3
          have e4 := jProp_single_ne k "counter" v h4
          simp only [importData, e1, e2, e3, e4]

/-- Witness for C9: importing `{"counter": 0}` into a state whose stored
counter is 7 succeeds and leaves the state — counter included — unchanged. -/
theorem importData_falsy_key_ignored_witness :
    importData (some (JVal.jobj [("counter", JVal.jnum 0)]))
        ⟨none, none, none, some (JVal.jnum 7)⟩
      = (true, ⟨none, none, none, some (JVal.jnum 7)⟩) :=
  importData_falsy_key_ignored ⟨none, none, none, some (JVal.jnum 7)⟩
    "counter" (JVal.jnum 0) (by decide)

/-- The local freelancer profile (src/types: `FreelancerInfo`). -/
structure FreelancerInfo where
  id : String
  name : String
  email : String
  address : String
  phone : Option String
  website : Option String
deriving Repr, DecidableEq

/-- The local client record (src/types: `Client`); `createdAt` is a `Date`
modelled by its timestamp string. -/
structure ClientInfo where
  id : String
  companyName : String
  contactName : Option String
  email : String
  address : Option String
  phone : Option String
  createdAt : String
deriving Repr, DecidableEq

/-- The local invoice held in the state container (src/types: `Invoice`);
`Date` fields are modelled by their timestamp strings. -/
structure StoreInvoice where
  id : String
  invoiceNumber : String
  dateIssued : String
  dueDate : String
  freelancer : FreelancerInfo
  client : ClientInfo
  items : List InvoiceItem
  subtotal : ℚ
  taxRate : ℚ
  taxAmount : ℚ
  total : ℚ
  status : String
  notes : Option String
  createdAt : String
  updatedAt : String
deriving Repr, DecidableEq

/-- The partial update passed to the state container's `updateInvoice`
(`none` = field absent from the partial object). -/
structure UpdateInvoiceData where
  status : Option String
  notes : Option String
  dateIssued : Option String
  dueDate : Option String
deriving Repr, DecidableEq

/-- The object the state container forwards to the storage update.  It can
carry only these four columns: the source builds `dbUpdateData` from an empty
object and assigns no other key. -/
structure InvoiceDbUpdate where
  status : Option String
  notes : Option String
  date_issued : Option String
  due_date : Option String
deriving Repr, DecidableEq

/-- `date.toISOString().split('T')[0]` on a Date modelled by its ISO string. -/
def isoDatePart (s : String) : String :=
  String.mk (s.data.takeWhile (fun c => !(c == 'T')))

/-- How the state container builds `dbUpdateData`: `status` only when truthy,
`notes` whenever it is not `undefined`, the dates (always-truthy `Date`s)
whenever present, reduced to their `YYYY-MM-DD` part. -/
def buildInvoiceDbUpdate (u : UpdateInvoiceData) : InvoiceDbUpdate :=
  { status := if optTruthy u.status then u.status else none,
    notes := u.notes,
    date_issued := u.dateIssued.map isoDatePart,
    due_date := u.dueDate.map isoDatePart }

/-- The storage `update`: each column present in the patch overwrites the
row's column; `updated_at` is refreshed by the database. -/
def applyInvoiceDbUpdate (upd : InvoiceDbUpdate) (newUpdatedAt : Option String)
    (r : InvoiceRow) : InvoiceRow :=
  { r with
    status := upd.status.getD r.status,
    notes := match upd.notes with
      | some s => some s
      | none => r.notes,
    date_issued := upd.date_issued.getD r.date_issued,
    due_date := upd.due_date.getD r.due_date,
    updated_at := newUpdatedAt }

/-- How the state container patches one local invoice from the service's
returned row: only the targeted id is rewritten, and only its status, notes,
dates and `updatedAt` (`now` models `Date.now()`, the fallback when the row
carries no truthy `updated_at`). -/
def patchStoreInvoice (now : String) (targetId : String) (updatedRow : InvoiceRow)
    (inv : StoreInvoice) : StoreInvoice :=
  if inv.id == targetId then
    { inv with
      status := updatedRow.status,
      notes := if optTruthy updatedRow.notes then updatedRow.notes else none,
      dateIssued := updatedRow.date_issued,
      dueDate := updatedRow.due_date,
      updatedAt := if optTruthy updatedRow.updated_at
        then updatedRow.updated_at.getD now else now }
  else inv

/-- The local snapshot update in the state container's `updateInvoice`. -/
def storeUpdateInvoiceLocal (now : String) (invoices : List StoreInvoice)
    (targetId : String) (updatedRow : InvoiceRow) : List StoreInvoice :=
  invoices.map (patchStoreInvoice now targetId updatedRow)

/-- C8: the state container's `updateInvoice` forwards at most status, notes
and the two dates to the storage update — the updated row keeps its monetary
columns, invoice number and owning ids; locally, every invoice other than the
target is untouched, and the target keeps its monetary fields, items, invoice
number and its freelancer/client references. -/
theorem updateInvoice_frame :
    (∀ (u : UpdateInvoiceData) (ts : Option String) (r : InvoiceRow),
      (applyInvoiceDbUpdate (buildInvoiceDbUpdate u) ts r).subtotal = r.subtotal ∧
      (applyInvoiceDbUpdate (buildInvoiceDbUpdate u) ts r).tax_rate = r.tax_rate ∧
      (applyInvoiceDbUpdate (buildInvoiceDbUpdate u) ts r).tax_amount = r.tax_amount ∧
      (applyInvoiceDbUpdate (buildInvoiceDbUpdate u) ts r).total = r.total ∧
      (applyInvoiceDbUpdate (buildInvoiceDbUpdate u) ts r).invoice_number
        = r.invoice_number ∧
      (applyInvoiceDbUpdate (buildInvoiceDbUpdate u) ts r).freelancer_id
        = r.freelancer_id ∧
      (applyInvoiceDbUpdate (buildInvoiceDbUpdate u) ts r).client_id = r.client_id ∧
      (applyInvoiceDbUpdate (buildInvoiceDbUpdate u) ts r).id = r.id) ∧
    (∀ (now targetId : String) (row : InvoiceRow) (invoices : List StoreInvoice),
      storeUpdateInvoiceLocal now invoices targetId row
        = invoices.map (patchStoreInvoice now targetId row)) ∧
    (∀ (now targetId : String) (row : InvoiceRow) (inv : StoreInvoice),
      (inv.id ≠ targetId → patchStoreInvoice now targetId row inv = inv) ∧
      (patchStoreInvoice now targetId row inv).subtotal = inv.subtotal ∧
      (patchStoreInvoice now targetId row inv).taxRate = inv.taxRate ∧
      (patchStoreInvoice now targetId row inv).taxAmount = inv.taxAmount ∧
      (patchStoreInvoice now targetId row inv).total = inv.total ∧
      (patchStoreInvoice now targetId row inv).items = inv.items ∧
      (patchStoreInvoice now targetId row inv).invoiceNumber = inv.invoiceNumber ∧
      (patchStoreInvoice now targetId row inv).freelancer = inv.freelancer ∧
      (patchStoreInvoice now targetId row inv).client = inv.client ∧
      (patchStoreInvoice now targetId row inv).id = inv.id) := by
  refine ⟨?_, ?_, ?_⟩
  · intro u ts r
    exact ⟨rfl, rfl, rfl, rfl, rfl, rfl, rfl, rfl⟩
  · intro now targetId row invoices
    rfl
  · intro now targetId row inv
    constructor
    · intro hne
      simp [patchStoreInvoice, hne]
    · unfold patchStoreInvoice
      split <;> exact ⟨rfl, rfl, rfl, rfl, rfl, rfl, rfl, rfl, rfl⟩

/-- A sample local invoice used by the C8 witness. -/
def storeInvB : StoreInvoice :=
  { id := "b", invoiceNumber := "INV-002", dateIssued := "2024-01-01",
    dueDate := "2024-01-31",
    freelancer := { id := uuidA, name := "Jane", email := "j@x.co",
                    address := "1 Way", phone := none, website := none },
    client := { id := uuidB, companyName := "Acme", contactName := none,
                email := "a@x.co", address := none, phone := none,
                createdAt := "2024-01-01T00:00:00.000Z" },
    items := [⟨"i1", "work", 1, 100, 100⟩], subtotal := 100, taxRate := 20,
    taxAmount := 20, total := 120, status := "draft", notes := none,
    createdAt := "2024-01-01T00:00:00.000Z",
    updatedAt := "2024-01-01T00:00:00.000Z" }

/-- Witness for C8: updating invoice "a" leaves the differently-named local
invoice `storeInvB` unchanged, and the storage patch built from a
status-and-notes update preserves the row's subtotal. -/
theorem updateInvoice_frame_witness :
    patchStoreInvoice "t0" "a" (sampleInvoiceRow "a" uuidA) storeInvB = storeInvB ∧
    (applyInvoiceDbUpdate
        (buildInvoiceDbUpdate ⟨some "paid", some "thanks", none, none⟩) none
        (sampleInvoiceRow "a" uuidA)).subtotal
      = (sampleInvoiceRow "a" uuidA).subtotal := by
  constructor
  · exact (updateInvoice_frame.2.2 "t0" "a" (sampleInvoiceRow "a" uuidA) storeInvB).1
      (by decide)
  · exact (updateInvoice_frame.1 ⟨some "paid", some "thanks", none, none⟩ none
      (sampleInvoiceRow "a" uuidA)).1

end Invoicefy
